import Mathlib

/-!
Shallow embedding of the DuckDB CSV base-scanner core
(`BaseScanner`, `ScannerPosition`, `ScannerBoundary`, `ScannerResult`
from `base_scanner.cpp` of the sampled repository), together with proofs
of the specified properties.

Machine integers (`idx_t`) are modelled as `Nat`: all index arithmetic in
the embedded code is bounded increments and comparisons, far from 2^64.
Fallible operations (C++ `throw InternalException`) are modelled with
`Except String`.
-/

/-- States of the byte-level CSV automaton.
Modelled from the spec: the `CSVState` enumeration lives in
`csv_sniffer.hpp`, which is not among the sampled sources; the spec lists
the states (empty-line, standard, field delimiter, record separator,
quoted, quoted newline, escaped, unquoted quote, invalid, done). -/
inductive CSVState where
  | EMPTY_LINE
  | STANDARD
  | FIELD_DELIMITER
  | RECORD_SEPARATOR
  | QUOTED
  | QUOTED_NEWLINE
  | ESCAPED
  | UNQUOTED_QUOTE
  | INVALID_STATE
  | DONE
deriving DecidableEq

/-- Modelled from the spec: `CSVStates` (the holder of the automaton's
current state) is declared in `csv_sniffer.hpp`, not among the sampled
sources. Before initialization the automaton has no state (`none`). -/
structure CSVStates where
  current_state : Option CSVState
deriving DecidableEq

/-- Modelled from the spec: `CSVStates::Initialize` resets the automaton
to the given starting state. -/
def CSVStates.Initialize (st : CSVStates) (s : CSVState) : CSVStates :=
  { st with current_state := some s }

/-- The dialect state machine. Its transition table is external to the
sampled sources; the base scanner only stores a reference to it, so it is
modelled as an opaque identifier. -/
structure CSVStateMachine where
  machine_id : Nat
deriving DecidableEq

/-- A read-only buffer handle; only its `actual_size` (number of valid
bytes) is consulted by the embedded code. -/
structure CSVBufferHandle where
  actual_size : Nat
deriving DecidableEq

/-- The buffer source, an external collaborator (spec section 6). Modelled
abstractly by the three queries the base scanner performs:
`FileCount()`, `Done()` (no more data pending), and
`CachedBufferPerFile(file)` which, per the code comment at the call site
("If yes, are we in the last buffer?"), denotes the last buffer index of a
file; `GetBuffer(file, buffer)` yields the handle for a (file, buffer)
pair when it exists. -/
structure CSVBufferManager where
  file_count : Nat
  done : Bool
  cached_buffer_per_file : Nat → Nat
  get_buffer : Nat → Nat → Option CSVBufferHandle

/-- Scanner boundary: the half-open byte range within one buffer that a
scanner may consume. Field names follow the accessors used in
`base_scanner.cpp` (`GetFileIdx`, `GetBufferIdx`, `GetBufferPos`,
`GetEndPos`); `buffer_pos` is the start offset. -/
structure ScannerBoundary where
  file_idx : Nat
  buffer_idx : Nat
  buffer_pos : Nat
  end_pos : Nat
deriving DecidableEq

/-- `ScannerBoundary::SetEndPos`, as invoked by the constructor. -/
def ScannerBoundary.SetEndPos (b : ScannerBoundary) (e : Nat) : ScannerBoundary :=
  { b with end_pos := e }

/-- Modelled from the spec: `ScannerBoundary::InBoundary` is declared in
`csv_sniffer.hpp`, which is not among the sampled sources; per the spec,
"true iff file/buffer indices match and offset lies in [start, end)". -/
def ScannerBoundary.InBoundary (b : ScannerBoundary) (file_idx buffer_idx p : Nat) : Bool :=
  file_idx == b.file_idx && buffer_idx == b.buffer_idx &&
    b.buffer_pos ≤ p && p < b.end_pos

/-- Scanner position: `{file_id, buffer_id, pos, done}` as in the data
model; `done` is the terminal flag. -/
structure ScannerPosition where
  file_id : Nat
  buffer_id : Nat
  pos : Nat
  done : Bool
deriving DecidableEq

/-- `ScannerPosition::InBoundary`: delegates to the boundary with the
position's file index, buffer index and offset (base_scanner.cpp line 17). -/
def ScannerPosition.InBoundary (p : ScannerPosition) (boundary : ScannerBoundary) : Bool :=
  boundary.InBoundary p.file_id p.buffer_id p.pos

/-- Result accumulator. The C++ object also stores references to the
`CSVStates` and the state machine, which carry no state of their own here;
the `result_position` cursor (declared in the header, used by `Size` and
`Empty` in base_scanner.cpp) is the modelled state. -/
structure ScannerResult where
  result_position : Nat
deriving DecidableEq

/-- `ScannerResult::Size` (base_scanner.cpp line 9). -/
def ScannerResult.Size (r : ScannerResult) : Nat :=
  r.result_position

/-- `ScannerResult::Empty` (base_scanner.cpp line 13). -/
def ScannerResult.Empty (r : ScannerResult) : Bool :=
  r.result_position == 0

/-- The base scanner's state: its boundary, buffer manager, state machine,
current buffer handle, position, automaton states and initialized flag.
The `result` field stands for the concrete mode's result accumulator
(modelled from the spec: the base class itself declares no accumulator,
but the spec's frame conditions speak about it). -/
structure BaseScanner where
  boundary : ScannerBoundary
  buffer_manager : CSVBufferManager
  state_machine : CSVStateMachine
  cur_buffer_handle : Option CSVBufferHandle
  pos : ScannerPosition
  states : CSVStates
  initialized : Bool
  result : ScannerResult

def multifile_error_msg : String :=
  "We can\x27t have a buffer manager that scans to infinity with more than one file"

def parse_chunk_error_msg : String :=
  "ParseChunk() from CSV Base Scanner is mot implemented"

def get_result_error_msg : String :=
  "GetResult() from CSV Base Scanner is mot implemented"

def process_error_msg : String :=
  "Process() from CSV Base Scanner is mot implemented"

def finalize_error_msg : String :=
  "FinalizeChunkProcess() from CSV Base Scanner is mot implemented"

/-- The `BaseScanner` constructor (base_scanner.cpp lines 29-44). The
member `boundary` is copy-initialized from the parameter `boundary_p`
before the body runs; the body then clamps the end position of the local
parameter copy (`boundary_p.SetEndPos(...)`) and reads the initial
position from that copy. `none` models the constructor being handed a
(file, buffer) pair the buffer manager cannot serve (the C++ dereferences
the null handle). The `done` flag and `initialized` flag start out false
(header defaults, per the spec's lifecycle). -/
def BaseScanner.construct (buffer_manager : CSVBufferManager)
    (state_machine : CSVStateMachine) (boundary_p : ScannerBoundary) :
    Option BaseScanner :=
  match buffer_manager.get_buffer boundary_p.file_idx boundary_p.buffer_idx with
  | none => none
  | some handle =>
    let boundary_local := boundary_p.SetEndPos
      (if boundary_p.end_pos > handle.actual_size then handle.actual_size
       else boundary_p.end_pos)
    some {
      boundary := boundary_p,
      buffer_manager := buffer_manager,
      state_machine := state_machine,
      cur_buffer_handle := some handle,
      pos := { file_id := boundary_local.file_idx,
               buffer_id := boundary_local.buffer_idx,
               pos := boundary_local.buffer_pos,
               done := false },
      states := { current_state := none },
      initialized := false,
      result := { result_position := 0 } }

/-- `BaseScanner::Finished` (base_scanner.cpp lines 46-67). -/
def BaseScanner.Finished (s : BaseScanner) : Except String Bool :=
  if s.pos.done then Except.ok true
  else match s.cur_buffer_handle with
  | none => Except.ok true
  | some h =>
    if s.buffer_manager.file_count > 1 then
      Except.error multifile_error_msg
    else if !s.buffer_manager.done then
      Except.ok false
    else if s.pos.buffer_id != s.buffer_manager.cached_buffer_per_file s.pos.file_id then
      Except.ok false
    else
      Except.ok (s.pos.pos + 1 == h.actual_size)

/-- `BaseScanner::Reset` (base_scanner.cpp lines 69-72). -/
def BaseScanner.Reset (s : BaseScanner) : BaseScanner :=
  { s with pos := { s.pos with buffer_id := s.boundary.buffer_idx,
                               pos := s.boundary.buffer_pos } }

/-- `BaseScanner::ParseChunk` (base_scanner.cpp line 74): always throws. -/
def BaseScanner.ParseChunk (s : BaseScanner) : Except String ScannerResult :=
  Except.error parse_chunk_error_msg

/-- `BaseScanner::GetResult` (base_scanner.cpp line 78): always throws. -/
def BaseScanner.GetResult (s : BaseScanner) : Except String ScannerResult :=
  Except.error get_result_error_msg

/-- `BaseScanner::Initialize` (base_scanner.cpp lines 82-84): resets the
automaton to the empty-line state. It touches nothing else; in particular
it does not set the `initialized` flag. -/
def BaseScanner.Initialize (s : BaseScanner) : BaseScanner :=
  { s with states := s.states.Initialize CSVState.EMPTY_LINE }

/-- `BaseScanner::Process` (base_scanner.cpp line 86): always throws. -/
def BaseScanner.Process (s : BaseScanner) : Except String Unit :=
  Except.error process_error_msg

/-- `BaseScanner::FinalizeChunkProcess` (base_scanner.cpp line 90):
always throws. -/
def BaseScanner.FinalizeChunkProcess (s : BaseScanner) : Except String Unit :=
  Except.error finalize_error_msg

/-- `BaseScanner::ParseChunkInternal` (base_scanner.cpp lines 114-120):
initialize if the flag is unset, then `Process`, then
`FinalizeChunkProcess`. The returned pair carries the scanner state as
mutated so far alongside the outcome (a C++ exception propagates after
the `this`-mutations already performed). -/
def BaseScanner.ParseChunkInternal (s : BaseScanner) : BaseScanner × Except String Unit :=
  let s1 := if s.initialized then s else s.Initialize
  match s1.Process with
  | Except.error e => (s1, Except.error e)
  | Except.ok _ =>
    match s1.FinalizeChunkProcess with
    | Except.error e => (s1, Except.error e)
    | Except.ok _ => (s1, Except.ok ())

/-- ASCII lower-casing of one character, as used by the case-insensitive
column-name map. -/
def lowerChar (c : Char) : Char :=
  if 'A' ≤ c && c ≤ 'Z' then Char.ofNat (c.toNat + 32) else c

/-- Case-insensitive string equality of the `case_insensitive_map_t` keys. -/
def ciEq (a b : String) : Bool :=
  a.toList.map lowerChar == b.toList.map lowerChar

/-- The erase loop of `BaseScanner::ColumnTypesError` (base_scanner.cpp
lines 95-101): for each discovered name, if the map contains it
(case-insensitively), erase it. The map is modelled as an association
list. -/
def eraseLoop (sql_types_per_column : List (String × Nat)) (names : List String) :
    List (String × Nat) :=
  names.foldl
    (fun m n =>
      if m.any (fun kv => ciEq kv.1 n) then m.filter (fun kv => !(ciEq kv.1 n))
      else m)
    sql_types_per_column

/-- Rendering of the aggregated error message (base_scanner.cpp lines
105-110): quote and comma-append each remaining name, pop the trailing
comma, append the suffix. -/
def renderColumnTypesError (remaining : List (String × Nat)) : String :=
  ((remaining.foldl (fun ex col => ex ++ "\x22" ++ col.1 ++ "\x22,")
      "COLUMN_TYPES error: Columns with names: ").dropRight 1) ++
    " do not exist in the CSV File"

/-- `BaseScanner::ColumnTypesError` (base_scanner.cpp lines 94-112). -/
def BaseScanner.ColumnTypesError (sql_types_per_column : List (String × Nat))
    (names : List String) : String :=
  let remaining := eraseLoop sql_types_per_column names
  if remaining.isEmpty then ""
  else renderColumnTypesError remaining

/-- The declared names that do not occur (case-insensitively) among the
discovered names: the set the error message must enumerate. -/
def unmatchedColumns (sql_types_per_column : List (String × Nat))
    (names : List String) : List (String × Nat) :=
  sql_types_per_column.filter (fun kv => !(names.any (fun n => ciEq kv.1 n)))

/- Concrete instances used by witness and counterexample theorems. -/

def exHandle : CSVBufferHandle := { actual_size := 10 }

def exBM : CSVBufferManager :=
  { file_count := 1, done := true,
    cached_buffer_per_file := fun _ => 0,
    get_buffer := fun _ _ => some exHandle }

def exBM2 : CSVBufferManager :=
  { file_count := 2, done := false,
    cached_buffer_per_file := fun _ => 0,
    get_buffer := fun _ _ => some exHandle }

def exBoundary : ScannerBoundary :=
  { file_idx := 0, buffer_idx := 0, buffer_pos := 0, end_pos := 100 }

def exScanner : BaseScanner :=
  { boundary := exBoundary,
    buffer_manager := exBM,
    state_machine := { machine_id := 0 },
    cur_buffer_handle := some exHandle,
    pos := { file_id := 0, buffer_id := 0, pos := 9, done := false },
    states := { current_state := none },
    initialized := false,
    result := { result_position := 3 } }

def exScanner2 : BaseScanner :=
  { exScanner with buffer_manager := exBM2 }

def exScannerDone : BaseScanner :=
  { exScanner with pos := { exScanner.pos with done := true } }

def exConstructed : Option BaseScanner :=
  BaseScanner.construct exBM { machine_id := 0 } exBoundary

/-- C9: `Size()` returns exactly the `result_position` cursor, and
`Empty()` is true iff `Size()` is zero. -/
theorem scannerResult_size_empty_c9 (r : ScannerResult) :
    r.Size = r.result_position ∧ (r.Empty = true ↔ r.Size = 0) := by
  refine ⟨rfl, ?_⟩
  simp [ScannerResult.Empty, ScannerResult.Size]

/-- C8: the position's in-boundary predicate holds iff the file and
buffer indices match the boundary's and the offset lies in the half-open
range from the start offset (inclusive) to the end offset (exclusive). -/
theorem position_inBoundary_iff_c8 (p : ScannerPosition) (b : ScannerBoundary) :
    p.InBoundary b = true ↔
      (p.file_id = b.file_idx ∧ p.buffer_id = b.buffer_idx ∧
       b.buffer_pos ≤ p.pos ∧ p.pos < b.end_pos) := by
  simp [ScannerPosition.InBoundary, ScannerBoundary.InBoundary, and_assoc]

/-- C6: the four base operations `ParseChunk`, `GetResult`, `Process`
and `FinalizeChunkProcess` raise an error on every scanner state; none of
them ever returns normally. -/
theorem base_unimplemented_c6 (s : BaseScanner) :
    s.ParseChunk = Except.error parse_chunk_error_msg ∧
    s.GetResult = Except.error get_result_error_msg ∧
    s.Process = Except.error process_error_msg ∧
    s.FinalizeChunkProcess = Except.error finalize_error_msg :=
  ⟨rfl, rfl, rfl, rfl⟩

/-- C5: `Reset` rewinds the position to the boundary's buffer index and
start offset, leaves the result accumulator unchanged, and is idempotent. -/
theorem reset_c5 (s : BaseScanner) :
    (s.Reset).pos.buffer_id = s.boundary.buffer_idx ∧
    (s.Reset).pos.pos = s.boundary.buffer_pos ∧
    (s.Reset).result = s.result ∧
    s.Reset.Reset = s.Reset :=
  ⟨rfl, rfl, rfl, rfl⟩

/-- C10: `Reset` leaves the position's file index and done flag
unchanged, and a scanner whose done flag is set is still `Finished`
immediately after `Reset`. -/
theorem reset_frame_c10 (s : BaseScanner) :
    (s.Reset).pos.file_id = s.pos.file_id ∧
    (s.Reset).pos.done = s.pos.done ∧
    (s.pos.done = true → (s.Reset).Finished = Except.ok true) := by
  refine ⟨rfl, rfl, fun h => ?_⟩
  simp [BaseScanner.Finished, BaseScanner.Reset, h]

/-- C10 witness: a concrete done scanner is still finished after reset. -/
theorem reset_frame_c10_witness : (exScannerDone.Reset).Finished = Except.ok true :=
  (reset_frame_c10 exScannerDone).2.2 rfl

/-- C2: with the done flag unset and a buffer handle present, `Finished`
on a buffer manager holding more than one file raises the fatal
multi-file error instead of returning a boolean. -/
theorem finished_multifile_c2 (s : BaseScanner) (hd : s.pos.done = false)
    (hh : s.cur_buffer_handle.isSome = true)
    (hf : 1 < s.buffer_manager.file_count) :
    s.Finished = Except.error multifile_error_msg := by
  cases hx : s.cur_buffer_handle with
  | none => rw [hx] at hh; simp at hh
  | some h => simp [BaseScanner.Finished, hd, hx, hf]

/-- C2 witness: a two-file scanner hits the fatal multi-file error. -/
theorem finished_multifile_c2_witness :
    exScanner2.Finished = Except.error multifile_error_msg :=
  finished_multifile_c2 exScanner2 rfl rfl (by decide)

/-- C3: the constructor fails to clamp the stored boundary: on a concrete
boundary with end offset 100 over a buffer of actual size 10, the
constructed scanner's stored boundary still has end offset 100, violating
the claimed invariant that the stored end offset is at most the buffer
size (the clamp at base_scanner.cpp lines 38-40 mutates only the local
by-value parameter, after the member was already copy-initialized). -/
theorem construct_unclamped_c3 :
    (exConstructed.map (fun s => s.boundary.end_pos) = some 100) ∧
    (exConstructed.map
        (fun s => (s.cur_buffer_handle.map CSVBufferHandle.actual_size).getD 0) =
      some 10) ∧
    10 < 100 :=
  ⟨rfl, rfl, by omega⟩

/-- C1: for a scanner over a buffer source holding at least one file,
`Finished` returns true iff the done flag is set, or the buffer handle is
absent, or (when exactly one file is active) the source reports no more
data pending, the position is in the last buffer of the file, and the
offset is at the last valid byte (offset + 1 equals the buffer's actual
size). -/
theorem finished_iff_c1 (s : BaseScanner)
    (hfc : 1 ≤ s.buffer_manager.file_count) :
    s.Finished = Except.ok true ↔
      (s.pos.done = true ∨ s.cur_buffer_handle = none ∨
        (s.buffer_manager.file_count = 1 ∧ s.buffer_manager.done = true ∧
         s.pos.buffer_id = s.buffer_manager.cached_buffer_per_file s.pos.file_id ∧
         ∃ h, s.cur_buffer_handle = some h ∧ s.pos.pos + 1 = h.actual_size)) := by
  cases hdone : s.pos.done with
  | true => simp [BaseScanner.Finished, hdone]
  | false =>
    cases hh : s.cur_buffer_handle with
    | none => simp [BaseScanner.Finished, hdone, hh]
    | some h =>
      by_cases hfg : s.buffer_manager.file_count > 1
      · have h1 : s.buffer_manager.file_count ≠ 1 := by omega
        simp [BaseScanner.Finished, hdone, hh, hfg, h1]
      · have h1 : s.buffer_manager.file_count = 1 := by omega
        cases hbd : s.buffer_manager.done with
        | false => simp [BaseScanner.Finished, hdone, hh, hfg, h1, hbd]
        | true =>
          by_cases hbid :
              s.pos.buffer_id = s.buffer_manager.cached_buffer_per_file s.pos.file_id
          · simp [BaseScanner.Finished, hdone, hh, hfg, h1, hbd, hbid]
          · simp [BaseScanner.Finished, hdone, hh, hfg, h1, hbd, hbid]

/-- C1 witness: a concrete single-file scanner at the last byte of the
last buffer is finished. -/
theorem finished_iff_c1_witness : exScanner.Finished = Except.ok true :=
  (finished_iff_c1 exScanner (by decide)).mpr
    (Or.inr (Or.inr ⟨rfl, rfl, rfl, exHandle, rfl, rfl⟩))

/-- C4 counterexample: on a concrete scanner, `Initialize` leaves the
initialized flag false, and the flag is still false even after a full
`ParseChunkInternal` call, so a subsequent `ParseChunkInternal` call
re-initializes the automaton — refuting the claim that `Initialize`
marks the scanner initialized. -/
theorem initialize_no_flag_c4_cex :
    (exScanner.Initialize).initialized = false ∧
    ((exScanner.ParseChunkInternal).1).initialized = false :=
  ⟨rfl, rfl⟩

/-- C4 (amended): `Initialize` sets the byte-level automaton to the
empty-line starting state but leaves the initialized flag unchanged; on a
scanner whose flag is unset, `ParseChunkInternal` initializes the
automaton, and — the flag still being unset afterwards — a second
`ParseChunkInternal` call re-initializes it again. -/
theorem initialize_amended_c4 (s : BaseScanner) (h : s.initialized = false) :
    s.Initialize.states = s.states.Initialize CSVState.EMPTY_LINE ∧
    s.Initialize.initialized = false ∧
    (s.ParseChunkInternal).1.states = s.states.Initialize CSVState.EMPTY_LINE ∧
    ((s.ParseChunkInternal).1.ParseChunkInternal).1.states =
      ((s.ParseChunkInternal).1.states).Initialize CSVState.EMPTY_LINE := by
  refine ⟨rfl, h, ?_, ?_⟩
  · simp [BaseScanner.ParseChunkInternal, BaseScanner.Process, h, BaseScanner.Initialize]
  · simp [BaseScanner.ParseChunkInternal, BaseScanner.Process, h, BaseScanner.Initialize]

/-- C4 witness: the amended statement instantiated at a concrete
uninitialized scanner. -/
theorem initialize_amended_c4_witness :
    exScanner.Initialize.states = exScanner.states.Initialize CSVState.EMPTY_LINE :=
  (initialize_amended_c4 exScanner rfl).1

/-- The erase loop removes from the map exactly the entries whose key
matches (case-insensitively) some discovered name. -/
theorem eraseLoop_eq_filter (names : List String) :
    ∀ m, eraseLoop m names =
      m.filter (fun kv => !(names.any (fun n => ciEq kv.1 n))) := by
  induction names with
  | nil =>
    intro m
    simp [eraseLoop]
  | cons n ns ih =>
    intro m
    have h1 : eraseLoop m (n :: ns) =
        eraseLoop
          (if m.any (fun kv => ciEq kv.1 n) then
            m.filter (fun kv => !(ciEq kv.1 n))
          else m) ns := rfl
    rw [h1, ih]
    by_cases hm : m.any (fun kv => ciEq kv.1 n) = true
    · rw [if_pos hm, List.filter_filter]
      apply List.filter_congr
      intro kv _
      simp [List.any_cons, Bool.not_or, Bool.and_comm]
    · rw [if_neg hm]
      apply List.filter_congr
      intro kv hkv
      have hfalse : ciEq kv.1 n = false := by
        have := List.any_eq_false.mp (Bool.eq_false_iff.mpr hm) kv hkv
        simpa using this
      simp [List.any_cons, hfalse]

/-- The aggregated message is never the empty string. -/
theorem renderColumnTypesError_ne_empty (u : List (String × Nat)) :
    renderColumnTypesError u ≠ "" := by
  intro habs
  have hlen : (renderColumnTypesError u).length = 0 := by rw [habs]; rfl
  rw [renderColumnTypesError, String.length_append] at hlen
  have : (" do not exist in the CSV File" : String).length = 29 := rfl
  omega

/-- C7: `ColumnTypesError` returns the empty string iff every declared
column name occurs (case-insensitively) among the discovered names; and
otherwise it returns the single aggregated message rendered from exactly
the declared names that do not occur among the discovered names. -/
theorem columnTypesError_c7 (m : List (String × Nat)) (names : List String) :
    (BaseScanner.ColumnTypesError m names = "" ↔
      ∀ kv ∈ m, ∃ n ∈ names, ciEq kv.1 n = true) ∧
    (unmatchedColumns m names ≠ [] →
      BaseScanner.ColumnTypesError m names =
        renderColumnTypesError (unmatchedColumns m names)) := by
  have key : eraseLoop m names = unmatchedColumns m names :=
    eraseLoop_eq_filter names m
  constructor
  · rw [BaseScanner.ColumnTypesError, key]
    by_cases hre : unmatchedColumns m names = []
    · rw [hre]
      simp only [List.isEmpty_nil, if_pos]
      constructor
      · intro _ kv hkv
        have := List.filter_eq_nil_iff.mp hre kv hkv
        simpa [unmatchedColumns] using this
      · intro _
        trivial
    · rw [if_neg (by simpa [List.isEmpty_iff] using hre)]
      constructor
      · intro habs
        exact absurd habs (renderColumnTypesError_ne_empty _)
      · intro hall
        exfalso
        apply hre
        rw [unmatchedColumns, List.filter_eq_nil_iff]
        intro kv hkv
        simpa using hall kv hkv
  · intro hne
    rw [BaseScanner.ColumnTypesError, key,
      if_neg (by simpa [List.isEmpty_iff] using hne)]

/-- C7 witness: declared names a (matched case-insensitively by A) and b
(unmatched) against the discovered name list holding only A. -/
theorem columnTypesError_c7_witness :
    BaseScanner.ColumnTypesError [("a", 0), ("b", 1)] ["A"] =
      renderColumnTypesError (unmatchedColumns [("a", 0), ("b", 1)] ["A"]) :=
  (columnTypesError_c7 [("a", 0), ("b", 1)] ["A"]).2 (by decide)
